import Mathlib

/-!
Verification of the FactorioBoard server's archive ingestion and analytics
engine against its specification.  The definitions below are shallow
embeddings of the TypeScript source: JavaScript strings are modelled as
lists of Unicode code points (`List Nat`) or `List Char`/`String` where
convenient, JavaScript numbers as exact rationals (`ℚ`) with `Option`
marking `NaN`/absent values, and fallible code as `Except`/`Option`.
-/

attribute [local semireducible] Rat.mul Rat.add Rat.sub Rat.inv

/-! ## Archive Locator (save.service.ts, `findLevelInitInZip`) -/

/-- A zip directory entry; only its path matters to the locator (the
`buffer` callback of the source is opaque to the matching logic). -/
structure ZipEntry where
  path : List Char
deriving DecidableEq, Repr

/-- The fixed target basename `LEVEL_INIT_NAME = "level-init.dat"`. -/
def levelInitName : List Char := "level-init.dat".toList

/-- `p.replace(/\\/g, "/")`: normalize backslashes to forward slashes. -/
def normalizeSep (p : List Char) : List Char :=
  p.map (fun c => if c = '\\' then '/' else c)

/-- `startsList pat s`: `pat` is a prefix of `s` (character-wise). -/
def startsList : List Char → List Char → Bool
  | [], _ => true
  | _ :: _, [] => false
  | a :: as, b :: bs => a = b && startsList as bs

/-- `endsList pat s`: `s` ends with `pat`, as JavaScript `s.endsWith(pat)`. -/
def endsList (pat s : List Char) : Bool :=
  startsList pat.reverse s.reverse

/-- The source's match test: `p.endsWith(LEVEL_INIT_NAME) || p === LEVEL_INIT_NAME`
after separator normalization. -/
def matchesLevelInit (f : ZipEntry) : Bool :=
  let p := normalizeSep f.path
  endsList levelInitName p || p == levelInitName

/-- `findLevelInitInZip`: first entry of the listing whose (normalized) path
ends with, or equals, the target basename. -/
def findLevelInitInZip (files : List ZipEntry) : Option ZipEntry :=
  files.find? matchesLevelInit

/-- The claim's matching predicate, from the spec's words: the normalized
path equals the target basename exactly or ends with `"/" + basename`. -/
def claimMatchesLevelInit (p : List Char) : Bool :=
  let n := normalizeSep p
  n == levelInitName || endsList ('/' :: levelInitName) n

theorem startsList_iff (pat s : List Char) :
    startsList pat s = true ↔ ∃ t, s = pat ++ t := by
  induction pat generalizing s with
  | nil => simp [startsList]
  | cons a as ih =>
    cases s with
    | nil => simp [startsList]
    | cons b bs =>
      simp only [startsList, Bool.and_eq_true, decide_eq_true_eq, ih]
      constructor
      · rintro ⟨rfl, t, rfl⟩; exact ⟨t, rfl⟩
      · rintro ⟨t, h⟩
        injection h with h1 h2
        exact ⟨h1.symm, t, h2⟩

theorem endsList_iff (pat s : List Char) :
    endsList pat s = true ↔ ∃ pre, s = pre ++ pat := by
  unfold endsList
  rw [startsList_iff]
  constructor
  · rintro ⟨t, ht⟩
    refine ⟨t.reverse, ?_⟩
    have := congrArg List.reverse ht
    simpa using this
  · rintro ⟨pre, rfl⟩
    exact ⟨pre.reverse, by simp⟩

/-- C1 (amended): the locator returns the first entry, in list order, whose
normalized path equals the target basename or merely ends with the basename's
character sequence (a preceding "/" is not required); the claim's probe
entries still behave as stated. -/
theorem C1_locator_suffix_match :
    (∀ files : List ZipEntry, findLevelInitInZip files = files.find? matchesLevelInit) ∧
    (∀ p : List Char, matchesLevelInit ⟨p⟩ = true ↔
      (normalizeSep p = levelInitName ∨ ∃ pre, normalizeSep p = pre ++ levelInitName)) ∧
    matchesLevelInit ⟨"level-init.dat".toList⟩ = true ∧
    matchesLevelInit ⟨"x/level-init.dat".toList⟩ = true ∧
    matchesLevelInit ⟨"a/b/level-init.dat".toList⟩ = true ∧
    matchesLevelInit ⟨"level-init.dat.bak".toList⟩ = false ∧
    findLevelInitInZip [⟨"a/level-init.dat".toList⟩, ⟨"b/level-init.dat".toList⟩] =
      some ⟨"a/level-init.dat".toList⟩ := by
  refine ⟨fun _ => rfl, fun p => ?_, by decide, by decide, by decide, by decide, by decide⟩
  unfold matchesLevelInit
  simp only [Bool.or_eq_true, beq_iff_eq, endsList_iff]
  tauto

/-- C1 (counterexample): the entry "xlevel-init.dat" is matched (and returned)
by the locator although its path neither equals the basename nor ends with
"/" + basename, refuting the claimed iff. -/
theorem C1_counterexample :
    findLevelInitInZip [⟨"xlevel-init.dat".toList⟩] = some ⟨"xlevel-init.dat".toList⟩ ∧
    claimMatchesLevelInit "xlevel-init.dat".toList = false := by
  decide

/-! ## Upload validation (gameSaveService.ts, `uploadFile`) -/

/-- The slice of `Express.Multer.File` that `uploadFile` inspects. -/
structure UploadedFile where
  mimetype : String
  size : Nat
  buffer : List Nat
deriving DecidableEq, Repr

/-- The uniform success/failure envelope (`ServiceResponse`). -/
structure ServiceResponse where
  success : Bool
  message : String
  statusCode : Nat
deriving DecidableEq, Repr

/-- The fixed archive/compression mime-type allow-list of `uploadFile`. -/
def allowedMimeTypes : List String :=
  ["application/zip", "application/x-zip-compressed", "application/x-rar-compressed",
   "application/x-rar", "application/x-7z-compressed", "application/gzip",
   "application/x-gzip", "application/x-tar"]

/-- `200 * 1024 * 1024` bytes: the 200 MiB upload cap. -/
def maxUploadSize : Nat := 200 * 1024 * 1024

/-- `uploadFile`, modelled as a transition on the storage root's contents
(the list of persisted byte buffers).  Validation happens before any write;
the stored name generation (UUID) is irrelevant to the claims and the saved
buffer stands for the persisted file. -/
def uploadFile (store : List (List Nat)) (file : UploadedFile) :
    ServiceResponse × List (List Nat) :=
  if ¬ allowedMimeTypes.contains file.mimetype then
    (⟨false, "Invalid file type. Only compressed files (zip, rar, 7z, gz, tar) are allowed.", 400⟩, store)
  else if file.size > maxUploadSize then
    (⟨false, "File size exceeds the maximum limit of 100MB.", 400⟩, store)
  else
    (⟨true, "File uploaded successfully", 200⟩, store ++ [file.buffer])

/-- C8: an upload with a disallowed mime type or a size over 200 MiB gets a
BAD_REQUEST failure response, and the storage root is left exactly as it
was — the validation has no storage side effect. -/
theorem C8_upload_validation_atomic (store : List (List Nat)) (file : UploadedFile)
    (h : ¬ allowedMimeTypes.contains file.mimetype ∨ file.size > maxUploadSize) :
    (uploadFile store file).1.success = false ∧
    (uploadFile store file).1.statusCode = 400 ∧
    (uploadFile store file).2 = store := by
  unfold uploadFile
  rcases h with h | h
  · rw [if_pos h]
    exact ⟨rfl, rfl, rfl⟩
  · by_cases hm : ¬ allowedMimeTypes.contains file.mimetype
    · rw [if_pos hm]
      exact ⟨rfl, rfl, rfl⟩
    · rw [if_neg hm, if_pos h]
      exact ⟨rfl, rfl, rfl⟩

/-- C8 (witness): a 5-byte "text/plain" upload is rejected with 400 and
persists nothing. -/
theorem C8_witness :
    (uploadFile [] ⟨"text/plain", 5, [104, 101, 108, 108, 111]⟩).1.success = false ∧
    (uploadFile [] ⟨"text/plain", 5, [104, 101, 108, 108, 111]⟩).1.statusCode = 400 ∧
    (uploadFile [] ⟨"text/plain", 5, [104, 101, 108, 108, 111]⟩).2 = [] :=
  C8_upload_validation_atomic [] ⟨"text/plain", 5, [104, 101, 108, 108, 111]⟩
    (Or.inl (by decide))

/-! ## Storage retention (gameSaveRepository.ts, `pruneOldFilesIfExceed`) -/

/-- A regular file of the storage root: its directory-entry name and its
`stat` modification time in milliseconds. -/
structure StoredFile where
  name : String
  mtimeMs : Int
deriving DecidableEq, Repr

/-- The source's sort comparator `(a, b) => a.mtimeMs - b.mtimeMs`:
ascending modification time. -/
def byMtimeAsc (a b : StoredFile) : Prop := a.mtimeMs ≤ b.mtimeMs

/-- Descending modification time, used to phrase "most recently modified". -/
def byMtimeDesc (a b : StoredFile) : Prop := b.mtimeMs ≤ a.mtimeMs

/-- Strictly more recently modified. -/
def strictNewer (a b : StoredFile) : Prop := b.mtimeMs < a.mtimeMs

instance : DecidableRel byMtimeAsc :=
  fun a b => inferInstanceAs (Decidable (a.mtimeMs ≤ b.mtimeMs))

instance : DecidableRel byMtimeDesc :=
  fun a b => inferInstanceAs (Decidable (b.mtimeMs ≤ a.mtimeMs))

instance : IsTotal StoredFile byMtimeAsc :=
  ⟨fun a b => Int.le_total a.mtimeMs b.mtimeMs⟩

instance : IsTrans StoredFile byMtimeAsc :=
  ⟨fun _ _ _ h1 h2 => le_trans h1 h2⟩

instance : IsTotal StoredFile byMtimeDesc :=
  ⟨fun a b => (Int.le_total b.mtimeMs a.mtimeMs).symm.symm⟩

instance : IsTrans StoredFile byMtimeDesc :=
  ⟨fun _ _ _ h1 h2 => le_trans h2 h1⟩

instance : IsAntisymm StoredFile strictNewer :=
  ⟨fun _ _ h1 h2 => absurd (lt_trans h1 h2) (lt_irrefl _)⟩

/-- `pruneOldFilesIfExceed(maxCount)`: when the storage root holds more than
`maxCount` regular files, sort them ascending by modification time (the
engine's `Array.sort` is stable, as is `List.insertionSort`) and unlink the
oldest surplus ones; the survivors are the directory entries whose names were
not unlinked.  With at most `maxCount` files it is a no-op. -/
def pruneOldFilesIfExceed (maxCount : Nat) (files : List StoredFile) : List StoredFile :=
  if files.length ≤ maxCount then files
  else
    let withStat := files.insertionSort byMtimeAsc
    let toRemove := withStat.take (withStat.length - maxCount)
    files.filter (fun f => toRemove.all (fun g => g.name != f.name))

/-- The `k` most-recently-modified files (the spec side of C2): sort
descending by modification time and take the first `k`. -/
def mostRecentFiles (k : Nat) (files : List StoredFile) : List StoredFile :=
  (files.insertionSort byMtimeDesc).take k

theorem filter_not_named (t d : List StoredFile)
    (h : ((t ++ d).map StoredFile.name).Nodup) :
    (t ++ d).filter (fun f => t.all (fun g => g.name != f.name)) = d := by
  rw [List.map_append, List.nodup_append] at h
  rw [List.filter_append]
  have h1 : t.filter (fun f => t.all (fun g => g.name != f.name)) = [] := by
    rw [List.filter_eq_nil_iff]
    intro a ha hall
    have := (List.all_eq_true.mp hall) a ha
    simp at this
  have h2 : d.filter (fun f => t.all (fun g => g.name != f.name)) = d := by
    rw [List.filter_eq_self]
    intro a ha
    rw [List.all_eq_true]
    intro g hg
    have hga : g.name ≠ a.name := by
      intro heq
      exact h.2.2 (List.mem_map_of_mem StoredFile.name hg)
        (heq ▸ List.mem_map_of_mem StoredFile.name ha)
    simpa using hga
  rw [h1, h2, List.nil_append]

/-- C2: with pairwise-distinct names and modification times, pruning leaves
exactly `min(priorCount, maxCount)` files, the survivors are (up to order)
the `min(priorCount, maxCount)` most-recently-modified files, and with
`priorCount ≤ maxCount` the file set is untouched. -/
theorem C2_retention (maxCount : Nat) (files : List StoredFile)
    (hname : (files.map StoredFile.name).Nodup)
    (hmtime : (files.map StoredFile.mtimeMs).Nodup) :
    (pruneOldFilesIfExceed maxCount files).length = min files.length maxCount ∧
    (pruneOldFilesIfExceed maxCount files).Perm
      (mostRecentFiles (min files.length maxCount) files) ∧
    (files.length ≤ maxCount → pruneOldFilesIfExceed maxCount files = files) := by
  have hD : (List.insertionSort byMtimeDesc files).Perm files := List.perm_insertionSort _ _
  have hDlen : (List.insertionSort byMtimeDesc files).length = files.length := hD.length_eq
  by_cases hle : files.length ≤ maxCount
  · have hfix : pruneOldFilesIfExceed maxCount files = files := by
      unfold pruneOldFilesIfExceed
      rw [if_pos hle]
    have hmin : min files.length maxCount = files.length := Nat.min_eq_left hle
    refine ⟨by rw [hfix, hmin], ?_, fun _ => hfix⟩
    rw [hfix, hmin]
    unfold mostRecentFiles
    rw [← hDlen, List.take_length]
    exact hD.symm
  · have hlt : maxCount < files.length := Nat.lt_of_not_le hle
    have hA : (List.insertionSort byMtimeAsc files).Perm files := List.perm_insertionSort _ _
    have hAlen : (List.insertionSort byMtimeAsc files).length = files.length := hA.length_eq
    have hAnodup : ((List.insertionSort byMtimeAsc files).map StoredFile.name).Nodup :=
      (hA.map StoredFile.name).nodup_iff.mpr hname
    have key := filter_not_named
      ((List.insertionSort byMtimeAsc files).take
        ((List.insertionSort byMtimeAsc files).length - maxCount))
      ((List.insertionSort byMtimeAsc files).drop
        ((List.insertionSort byMtimeAsc files).length - maxCount))
      (by rw [List.take_append_drop]; exact hAnodup)
    rw [List.take_append_drop] at key
    have hpr : pruneOldFilesIfExceed maxCount files =
        files.filter (fun f => ((List.insertionSort byMtimeAsc files).take
          ((List.insertionSort byMtimeAsc files).length - maxCount)).all
            (fun g => g.name != f.name)) := by
      unfold pruneOldFilesIfExceed
      rw [if_neg hle]
    have hperm1 : (pruneOldFilesIfExceed maxCount files).Perm
        ((List.insertionSort byMtimeAsc files).drop
          ((List.insertionSort byMtimeAsc files).length - maxCount)) := by
      rw [hpr, ← key]
      exact hA.symm.filter _
    have hstrictA : (List.insertionSort byMtimeAsc files).Pairwise
        (fun a b => a.mtimeMs < b.mtimeMs) := by
      have hsorted : (List.insertionSort byMtimeAsc files).Pairwise byMtimeAsc :=
        List.sorted_insertionSort byMtimeAsc files
      have hnod : ((List.insertionSort byMtimeAsc files).map StoredFile.mtimeMs).Nodup :=
        (hA.map StoredFile.mtimeMs).nodup_iff.mpr hmtime
      have hne : (List.insertionSort byMtimeAsc files).Pairwise
          (fun a b => a.mtimeMs ≠ b.mtimeMs) := List.pairwise_map.mp hnod
      exact (hsorted.and hne).imp (fun h => lt_of_le_of_ne h.1 h.2)
    have hstrictD : (List.insertionSort byMtimeDesc files).Pairwise strictNewer := by
      have hsorted : (List.insertionSort byMtimeDesc files).Pairwise byMtimeDesc :=
        List.sorted_insertionSort byMtimeDesc files
      have hnod : ((List.insertionSort byMtimeDesc files).map StoredFile.mtimeMs).Nodup :=
        (hD.map StoredFile.mtimeMs).nodup_iff.mpr hmtime
      have hne : (List.insertionSort byMtimeDesc files).Pairwise
          (fun a b => a.mtimeMs ≠ b.mtimeMs) := List.pairwise_map.mp hnod
      exact (hsorted.and hne).imp (fun h => lt_of_le_of_ne h.1 (Ne.symm h.2))
    have hrevA : (List.insertionSort byMtimeAsc files).reverse.Pairwise strictNewer := by
      rw [List.pairwise_reverse]
      exact hstrictA
    have hrevperm : (List.insertionSort byMtimeAsc files).reverse.Perm
        (List.insertionSort byMtimeDesc files) :=
      ((List.reverse_perm _).trans hA).trans hD.symm
    have heqrev : (List.insertionSort byMtimeAsc files).reverse =
        List.insertionSort byMtimeDesc files :=
      List.eq_of_perm_of_sorted hrevperm hrevA hstrictD
    have hcount : (List.insertionSort byMtimeAsc files).length -
        ((List.insertionSort byMtimeAsc files).length - maxCount) = maxCount := by
      omega
    have hrevtake : ((List.insertionSort byMtimeAsc files).drop
        ((List.insertionSort byMtimeAsc files).length - maxCount)).reverse =
        (List.insertionSort byMtimeDesc files).take maxCount := by
      rw [List.reverse_drop, hcount, heqrev]
    have hdroptake : ((List.insertionSort byMtimeAsc files).drop
        ((List.insertionSort byMtimeAsc files).length - maxCount)).Perm
        ((List.insertionSort byMtimeDesc files).take maxCount) := by
      have h0 := (List.reverse_perm ((List.insertionSort byMtimeAsc files).drop
        ((List.insertionSort byMtimeAsc files).length - maxCount))).symm
      rw [hrevtake] at h0
      exact h0
    have hmin : min files.length maxCount = maxCount := Nat.min_eq_right (le_of_lt hlt)
    refine ⟨?_, ?_, fun hcon => absurd hcon hle⟩
    · rw [hperm1.length_eq, List.length_drop, hmin]
      omega
    · rw [hmin]
      exact hperm1.trans hdroptake

/-- Sample directory content for the retention witness. -/
def demoFiles : List StoredFile := [⟨"a.zip", 1⟩, ⟨"b.zip", 3⟩, ⟨"c.zip", 2⟩]

/-- C2 (witness): pruning three distinctly-named, distinctly-timed files down
to two keeps the two most recent. -/
theorem C2_witness :
    (pruneOldFilesIfExceed 2 demoFiles).length = min demoFiles.length 2 ∧
    (pruneOldFilesIfExceed 2 demoFiles).Perm (mostRecentFiles (min demoFiles.length 2) demoFiles) ∧
    (demoFiles.length ≤ 2 → pruneOldFilesIfExceed 2 demoFiles = demoFiles) :=
  C2_retention 2 demoFiles (by decide) (by decide)

/-! ## JavaScript number/string helpers

JavaScript numbers are modelled as exact rationals; an `Option ℚ` is used
where a value can be absent (`undefined`) or `NaN`.  `Math.round` and
`Number.prototype.toFixed(2)` round ties upward, which on exact rationals is
`⌊x + 1/2⌋`. -/

/-- `Math.round`. -/
def jsRound (q : ℚ) : Int := ⌊q + 1 / 2⌋

/-- The numeric value of `Number(x.toFixed(2))`: `x` rounded to hundredths. -/
def toFixed2val (q : ℚ) : ℚ := (jsRound (q * 100) : ℚ) / 100

/-- Two-digit decimal field. -/
def pad2 (n : Nat) : String := if n < 10 then "0" ++ toString n else toString n

/-- The string `x.toFixed(2)`. -/
def toFixed2str (q : ℚ) : String :=
  let n : Int := jsRound (q * 100)
  if n < 0 then "-" ++ toString (-n / 100) ++ "." ++ pad2 ((-n) % 100).toNat
  else toString (n / 100) ++ "." ++ pad2 (n % 100).toNat

/-- JavaScript `a || d` for strings: `d` when `a` is absent or empty. -/
def jsOrStr (a : Option String) (d : String) : String :=
  match a with
  | some s => if s = "" then d else s
  | none => d

/-- Truthiness of an optional numeric counter (`undefined` and `0` are falsy). -/
def truthyQ (a : Option ℚ) : Bool :=
  match a with
  | some v => v != 0
  | none => false

/-- `x < bound` where `x` may be `NaN`/absent (then the comparison is false). -/
def jsLtNum (a : Option ℚ) (bound : ℚ) : Bool :=
  match a with
  | some v => v < bound
  | none => false

/-- `record[key] || 0` over an association list. -/
def lookupOr0 (l : List (String × ℚ)) (key : String) : ℚ :=
  match l.lookup key with
  | some v => v
  | none => 0

/-- JavaScript `x || 1` on an optional number: `1` when absent or zero. -/
def jsOrOne (a : Option ℚ) : ℚ :=
  match a with
  | some v => if v = 0 then 1 else v
  | none => 1

/-- The stage component of the development score (`gameTime < 10 ?
gameTime/10*50 : 50`); a `NaN` time compares false and yields 50. -/
def stageScoreOf (gameTime : Option ℚ) : ℚ :=
  match gameTime with
  | some t => if t < 10 then t / 10 * 50 else 50
  | none => 50

/-- JavaScript `s.includes(sub)`. -/
def strIncludes (s sub : String) : Bool :=
  go s.toList sub.toList
where
  go : List Char → List Char → Bool
    | s, sub => startsList sub s ||
        match s with
        | [] => false
        | _ :: tail => go tail sub

/-! ## Decoded save data (the parsed `level-init.dat` / full snapshot)

Each `Option` marks a substructure or field that may be absent in the parsed
JavaScript object. -/

/-- `header.factorioVersion`. -/
structure FactorioVersionInfo where
  asString : Option String
deriving DecidableEq, Repr

/-- One entry of `playerForce.technologies` (key plus its `researched` flag). -/
structure TechEntry where
  name : String
  researched : Bool
deriving DecidableEq, Repr

/-- `electric_network_statistics.production`. -/
structure ProdStats where
  nuclear : Option ℚ
  solar : Option ℚ
  steam : Option ℚ
  total : Option ℚ
deriving DecidableEq, Repr

/-- `electric_network_statistics.consumption`. -/
structure ConsStats where
  total : Option ℚ
deriving DecidableEq, Repr

/-- `playerForce.electric_network_statistics`. -/
structure ElecStats where
  production : Option ProdStats
  consumption : Option ConsStats
deriving DecidableEq, Repr

/-- `playerForce.item_production_statistics`. -/
structure ItemProdStats where
  output_counts : Option (List (String × ℚ))
deriving DecidableEq, Repr

/-- `gameData.forces.player`. -/
structure PlayerForce where
  technologies : Option (List TechEntry)
  electric_network_statistics : Option ElecStats
  item_production_statistics : Option ItemProdStats
  items : Option (List (String × ℚ))
deriving DecidableEq, Repr

/-- `gameData.forces`. -/
structure Forces where
  player : Option PlayerForce
deriving DecidableEq, Repr

/-- An entity of the main map surface. -/
structure MapEntity where
  name : Option String
  amount : Option ℚ
deriving DecidableEq, Repr

/-- One surface of `saveData.map.surfaces`. -/
structure Surface where
  entities : Option (List MapEntity)
deriving DecidableEq, Repr

/-- `saveData.map`. -/
structure MapData where
  name : Option String
  surfaces : Option (List Surface)
deriving DecidableEq, Repr

/-- `saveData.game`. -/
structure GameData where
  forces : Option Forces
  tick : Option ℚ
deriving DecidableEq, Repr

/-- The decoded save record (header fields plus the optional snapshot). -/
structure SaveData where
  name : Option String
  factorioVersion : Option FactorioVersionInfo
  game : Option GameData
  map : Option MapData
  game_version : Option String
deriving DecidableEq, Repr

/-! ## Analysis report (`FactorioAnalysisResult`)

Record-typed fields of the TypeScript interface (`Record<string, number>`)
are association lists so that the degraded report's empty records and the
full report's fixed-key records share one type.  A score of `none` models
`NaN` (an empty technology table makes `researched/total` NaN in JS). -/

/-- Basic section of the report. -/
structure BasicInfo where
  saveName : String
  gameTimeHour : String
  gameVersion : String
deriving DecidableEq, Repr

/-- `develop.techStatus`. -/
structure TechStatus where
  researchedCount : Nat
  totalTechCount : Nat
  techRate : String
deriving DecidableEq, Repr

/-- Development dimension. -/
structure DevelopDim where
  stage : String
  score : Option Int
  techStatus : TechStatus
  mainPowerType : String
deriving DecidableEq, Repr

/-- Resource dimension. -/
structure ResourceDim where
  mined : List (String × ℚ)
  remaining : List (String × ℚ)
  storage : List (String × ℚ)
  coreResAlert : List String
deriving DecidableEq, Repr

/-- Production dimension. -/
structure ProductionDim where
  machines : List (String × Nat)
  efficiencyRate : String
  efficiencyAlert : List String
deriving DecidableEq, Repr

/-- Power dimension; `powerRatioStr` is the source's `powerRatio` string. -/
structure PowerDim where
  totalProduction : Int
  totalConsumption : Int
  powerRatioStr : String
  powerStatus : String
deriving DecidableEq, Repr

/-- Enemy dimension. -/
structure EnemyDim where
  totalCount : Nat
  nestCount : Nat
  threatLevel : String
  threatAlert : List String
deriving DecidableEq, Repr

/-- Prioritized suggestion buckets. -/
structure OptimizeSuggestions where
  urgent : List String
  important : List String
  suggest : List String
deriving DecidableEq, Repr

/-- The full analysis report. -/
structure FactorioAnalysisResult where
  fullAnalysisAvailable : Bool
  basic : BasicInfo
  develop : DevelopDim
  resource : ResourceDim
  production : ProductionDim
  power : PowerDim
  enemy : EnemyDim
  optimizeSuggestions : OptimizeSuggestions
deriving DecidableEq, Repr

/-- The single suggestion of a degraded report. -/
def headerOnlyNote : String :=
  "当前仅解析了存档头信息；全维度分析（资源/电力/敌人等）需要完整 level.dat 解析支持，暂无可用库。"

/-- `buildHeaderOnlyAnalysis`: the degraded report built from header fields
only; `??`-style sentinel fallbacks, every other dimension zeroed/empty, and
exactly one suggestion (in the `suggest` bucket). -/
def buildHeaderOnlyAnalysis (name : Option String)
    (factorioVersion : Option FactorioVersionInfo) : FactorioAnalysisResult :=
  { fullAnalysisAvailable := false
    basic :=
      { saveName := name.getD "未命名基地"
        gameTimeHour := "—"
        gameVersion := ((factorioVersion.bind FactorioVersionInfo.asString).getD "未知版本") }
    develop :=
      { stage := "前期（手动/半自动化）"
        score := some 0
        techStatus := ⟨0, 0, "0.00%"⟩
        mainPowerType := "热能" }
    resource := ⟨[], [], [], []⟩
    production := ⟨[], "—", []⟩
    power := ⟨0, 0, "—", "充足"⟩
    enemy := ⟨0, 0, "低", []⟩
    optimizeSuggestions := ⟨[], [], [headerOnlyNote]⟩ }

/-! ## Full-mode analysis blocks -/

/-- Count of entities with a given exact name. -/
def countName (entities : List MapEntity) (nm : String) : Nat :=
  (entities.filter (fun e => e.name == some nm)).length

/-- Sum of `amount ?? 0` over entities with a given name. -/
def sumAmount (entities : List MapEntity) (nm : String) : ℚ :=
  ((entities.filter (fun e => e.name == some nm)).map (fun e => e.amount.getD 0)).sum

/-- The numeric value of `Number(techRate.replace("%", ""))`:
`NaN` (`none`) for an empty technology table, else the two-decimal
percentage value. -/
def techRateNumOf (techs : List TechEntry) : Option ℚ :=
  if techs.length = 0 then none
  else some (toFixed2val ((((techs.filter TechEntry.researched).length : ℚ) / techs.length) * 100))

/-- Dimension 1 (source lines 175–199): technology status, main power type,
stage thresholds and the development score.  `gameTime` is
`Number(basic.gameTimeHour)`, i.e. the tick time in hours rounded to two
decimals, `none` when `NaN`. -/
def computeDevelop (techs : List TechEntry) (powerProduction : ProdStats)
    (gameTime : Option ℚ) : DevelopDim :=
  let techAllCount := techs.length
  let researchedCount := (techs.filter TechEntry.researched).length
  let techRate :=
    (if techAllCount = 0 then "NaN"
     else toFixed2str (((researchedCount : ℚ) / techAllCount) * 100)) ++ "%"
  let mainPowerType :=
    if truthyQ powerProduction.nuclear then "核能"
    else if truthyQ powerProduction.solar then "太阳能"
    else if truthyQ powerProduction.steam then "蒸汽"
    else "热能"
  let stage :=
    if jsLtNum gameTime 10 ∧ researchedCount < 30 then "前期（手动/半自动化）"
    else if jsLtNum gameTime 50 ∧ researchedCount < 80 then "中期（全自动化）"
    else if jsLtNum gameTime 200 ∧ researchedCount < 150 then "后期（规模化）"
    else "末期（无限升级）"
  let stageScore : ℚ := stageScoreOf gameTime
  let score : Option Int :=
    if techAllCount = 0 then none
    else some (min 100 (jsRound (min 50 (((researchedCount : ℚ) / techAllCount) * 50) + stageScore)))
  { stage := stage
    score := score
    techStatus := ⟨researchedCount, techAllCount, techRate⟩
    mainPowerType := mainPowerType }

/-- Dimension 2 (source lines 201–232): mined/remaining/storage records for
the fixed core resources and the depletion alerts. -/
def computeResource (outputCounts : List (String × ℚ)) (items : List (String × ℚ))
    (entities : List MapEntity) : ResourceDim :=
  let minedIron := lookupOr0 outputCounts "iron-ore"
  let minedCopper := lookupOr0 outputCounts "copper-ore"
  let minedCoal := lookupOr0 outputCounts "coal"
  let minedOil := lookupOr0 outputCounts "crude-oil"
  let remIron := sumAmount entities "iron-ore"
  let remCopper := sumAmount entities "copper-ore"
  let remCoal := sumAmount entities "coal"
  let remOil := sumAmount entities "crude-oil"
  let alertFor := fun (cn : String) (m rem : ℚ) =>
    if 0 < m ∧ rem / m < 1 / 10 then [cn ++ "剩余量不足已开采的10%，存在枯竭风险"] else []
  { mined := [("铁矿", minedIron), ("铜矿", minedCopper), ("煤", minedCoal), ("原油", minedOil)]
    remaining := [("铁矿", remIron), ("铜矿", remCopper), ("煤", remCoal), ("原油", remOil)]
    storage := [("铁板", lookupOr0 items "iron-plate"), ("铜板", lookupOr0 items "copper-plate"),
                ("铁齿轮", lookupOr0 items "iron-gear-wheel"), ("铜缆", lookupOr0 items "copper-cable")]
    coreResAlert :=
      alertFor "铁矿" minedIron remIron ++ alertFor "铜矿" minedCopper remCopper ++
      alertFor "煤" minedCoal remCoal ++ alertFor "原油" minedOil remOil }

/-- Dimension 3 (source lines 234–263): machine counts, efficiency ratio
(guarded against a zero machine count) and the efficiency alerts. -/
def computeProduction (entities : List MapEntity) (stage : String) : ProductionDim :=
  let stoneFurnace := countName entities "stone-furnace"
  let steelFurnace := countName entities "steel-furnace"
  let asm1 := countName entities "assembling-machine-1"
  let asm2 := countName entities "assembling-machine-2"
  let asm3 := countName entities "assembling-machine-3"
  let lab := countName entities "lab"
  let elecDrill := countName entities "electric-mining-drill"
  let burnerDrill := countName entities "burner-mining-drill"
  let totalEffective := steelFurnace + elecDrill
  let totalMachine := stoneFurnace + steelFurnace + elecDrill + burnerDrill
  { machines := [("石炉", stoneFurnace), ("钢炉", steelFurnace), ("组装机1", asm1),
                 ("组装机2", asm2), ("组装机3", asm3), ("研究中心", lab),
                 ("电力采矿机", elecDrill), ("热能采矿机", burnerDrill)]
    efficiencyRate :=
      if 0 < totalMachine then
        toFixed2str (((totalEffective : ℚ) / totalMachine) * 100) ++ "%"
      else "100%"
    efficiencyAlert :=
      (if 0 < stoneFurnace then
        ["仍有" ++ toString stoneFurnace ++ "个石炉，建议升级为钢炉（冶炼效率翻倍，耗煤不变）"] else []) ++
      (if 0 < burnerDrill then
        ["仍有" ++ toString burnerDrill ++ "个热能采矿机，建议升级为电力采矿机（采矿效率提升50%）"] else []) ++
      (if lab < 5 ∧ strIncludes stage "前期" then
        ["研究中心数量不足（当前" ++ toString lab ++ "个），科技解锁速度慢"] else []) }

/-- Dimension 4 (source lines 265–275): rounded production/consumption, the
two-decimal supply ratio string and the threshold status.  The
`totalConsumption = 0` branches transcribe JavaScript's `Infinity`/`NaN`
division results (reachable only for `0 < consumption.total < 1/2`). -/
def computePower (prodTotal consTotal : Option ℚ) : PowerDim :=
  let totalProduction : Int := jsRound (prodTotal.getD 0)
  let totalConsumption : Int := jsRound (jsOrOne consTotal)
  if totalConsumption = 0 then
    if 0 < totalProduction then ⟨totalProduction, 0, "Infinity", "充足"⟩
    else if totalProduction < 0 then ⟨totalProduction, 0, "-Infinity", "不足"⟩
    else ⟨totalProduction, 0, "NaN", "不足"⟩
  else
    let ratio := toFixed2val ((totalProduction : ℚ) / (totalConsumption : ℚ))
    { totalProduction := totalProduction
      totalConsumption := totalConsumption
      powerRatioStr := toFixed2str ((totalProduction : ℚ) / (totalConsumption : ℚ))
      powerStatus := if ratio ≥ 11 / 10 then "充足" else if ratio ≥ 9 / 10 then "紧张" else "不足" }

/-- The fixed hostile-unit catalog. -/
def enemyTypes : List String :=
  ["small-biter", "medium-biter", "big-biter", "behemoth-biter",
   "small-spitter", "medium-spitter", "big-spitter", "behemoth-spitter"]

/-- Dimension 5 (source lines 277–290): hostile counts, the nest-count
threshold level, and the alert issued only at high/critical levels. -/
def computeEnemy (entities : List MapEntity) : EnemyDim :=
  let totalCount := (entities.filter (fun e =>
    match e.name with
    | some n => enemyTypes.contains n
    | none => false)).length
  let nestCount := (entities.filter (fun e =>
    e.name == some "biter-nest" || e.name == some "spitter-nest")).length
  let threatLevel :=
    if nestCount = 0 then "低"
    else if nestCount < 10 then "中"
    else if nestCount < 30 then "高"
    else "极高"
  { totalCount := totalCount
    nestCount := nestCount
    threatLevel := threatLevel
    threatAlert :=
      if threatLevel = "高" ∨ threatLevel = "极高" then
        ["当前虫巢" ++ toString nestCount ++ "个，敌人" ++ toString totalCount ++
         "只，威胁等级" ++ threatLevel ++ "，建议加强基地防御"]
      else [] }

/-- Suggestion assembly (source lines 292–320). -/
def computeSuggestions (develop : DevelopDim) (resource : ResourceDim)
    (production : ProductionDim) (power : PowerDim) (enemy : EnemyDim)
    (techRateNum : Option ℚ) : OptimizeSuggestions :=
  let urgent :=
    (if power.powerStatus = "不足" then
      ["供电不足（供电比" ++ power.powerRatioStr ++ "），" ++
        (if develop.mainPowerType = "蒸汽" then "请按1泵:20锅炉:40蒸汽机补充发电设备"
         else "建议增加太阳能板/储能箱/核能反应堆")] else []) ++
    resource.coreResAlert ++
    (if enemy.threatLevel = "极高" then [enemy.threatAlert.head?.getD "undefined"] else [])
  let important :=
    (if power.powerStatus = "紧张" then
      ["供电紧张（供电比" ++ power.powerRatioStr ++ "），建议适当增加发电设备，避免设备停机"] else []) ++
    production.efficiencyAlert ++
    (if enemy.threatLevel = "高" then [enemy.threatAlert.head?.getD "undefined"] else [])
  let coreStorage := lookupOr0 resource.storage "铁板" + lookupOr0 resource.storage "铜板"
  let suggest :=
    (if jsLtNum techRateNum 50 then
      ["科技解锁率仅" ++ develop.techStatus.techRate ++ "，建议优化科技包生产线，增加研究中心数量"] else []) ++
    (if coreStorage < 1000 then
      ["核心基础材料（铁板+铜板）储备不足1000，建议提升冶炼产能"] else [])
  ⟨urgent, important, suggest⟩

/-- A substructure access that throws a `TypeError` in JavaScript when the
container is `undefined`. -/
def req {α : Type} (o : Option α) (msg : String) : Except String α :=
  match o with
  | some a => Except.ok a
  | none => Except.error msg

/-- Full-mode analysis body (source lines 152–322), entered once the save has
a `game` substructure and a first map surface.  Each `req` marks a property
access the source performs on a possibly-`undefined` object: a missing
substructure there raises a `TypeError`, in source order. -/
def analyzeFull (sd : SaveData) (gameData : GameData) (mapRec : MapData)
    (mapData : Surface) : Except String FactorioAnalysisResult := do
  let forces ← req gameData.forces "TypeError: cannot read properties of undefined (reading player)"
  let gameTick := gameData.tick
  let entities ← req mapData.entities "TypeError: cannot convert undefined to object (Object.values)"
  let basic : BasicInfo :=
    { saveName := jsOrStr mapRec.name "未命名基地"
      gameTimeHour :=
        match gameTick with
        | some t => toFixed2str (t / 60 / 60)
        | none => "NaN"
      gameVersion := jsOrStr sd.game_version "未知版本" }
  let player ← req forces.player "TypeError: cannot read properties of undefined (reading technologies)"
  let techs ← req player.technologies "TypeError: cannot convert undefined to object (Object.keys)"
  let ens ← req player.electric_network_statistics "TypeError: cannot read properties of undefined (reading production)"
  let powerProduction ← req ens.production "TypeError: cannot read properties of undefined (reading nuclear)"
  let gameTime : Option ℚ := gameTick.map (fun t => toFixed2val (t / 60 / 60))
  let develop := computeDevelop techs powerProduction gameTime
  let ips ← req player.item_production_statistics "TypeError: cannot read properties of undefined (reading output_counts)"
  let outputCounts ← req ips.output_counts "TypeError: cannot read properties of undefined (indexing output_counts)"
  let items ← req player.items "TypeError: cannot read properties of undefined (indexing items)"
  let resource := computeResource outputCounts items entities
  let production := computeProduction entities develop.stage
  let cons ← req ens.consumption "TypeError: cannot read properties of undefined (reading total)"
  let power := computePower powerProduction.total cons.total
  let enemy := computeEnemy entities
  let optimizeSuggestions :=
    computeSuggestions develop resource production power enemy (techRateNumOf techs)
  return { fullAnalysisAvailable := true
           basic := basic
           develop := develop
           resource := resource
           production := production
           power := power
           enemy := enemy
           optimizeSuggestions := optimizeSuggestions }

/-- The full-mode gate `saveData?.game && saveData?.map?.surfaces?.[0]`. -/
def fullModeAvailable (saveData : Option SaveData) : Bool :=
  match saveData with
  | none => false
  | some sd => sd.game.isSome && ((sd.map.bind MapData.surfaces).bind List.head?).isSome

/-- `analyzeFactorioSave`: degraded header-only report when the snapshot is
absent (`saveData ?? {}` feeds the header fields), full analysis otherwise. -/
def analyzeFactorioSave (saveData : Option SaveData) :
    Except String FactorioAnalysisResult :=
  match saveData with
  | none => Except.ok (buildHeaderOnlyAnalysis none none)
  | some sd =>
    match sd.game, (sd.map.bind MapData.surfaces).bind List.head? with
    | some gameData, some mapData =>
      match sd.map with
      | some mapRec => analyzeFull sd gameData mapRec mapData
      | none => Except.ok (buildHeaderOnlyAnalysis sd.name sd.factorioVersion)
    | some _, none => Except.ok (buildHeaderOnlyAnalysis sd.name sd.factorioVersion)
    | none, _ => Except.ok (buildHeaderOnlyAnalysis sd.name sd.factorioVersion)

/-- C5: for any input lacking a full snapshot — including an absent record —
the engine returns (never raises) the degraded report: header-derived basic
section with the sentinel fallbacks, all other dimensions zeroed/empty, and
exactly one suggestion, in the `suggest` bucket. -/
theorem C5_degraded_total (sd : Option SaveData)
    (h : fullModeAvailable sd = false) :
    analyzeFactorioSave sd =
      Except.ok (buildHeaderOnlyAnalysis (sd.bind SaveData.name) (sd.bind SaveData.factorioVersion)) ∧
    (∀ (nm : Option String) (fv : Option FactorioVersionInfo),
      (buildHeaderOnlyAnalysis nm fv).fullAnalysisAvailable = false ∧
      (buildHeaderOnlyAnalysis nm fv).basic.saveName = nm.getD "未命名基地" ∧
      (buildHeaderOnlyAnalysis nm fv).basic.gameTimeHour = "—" ∧
      (buildHeaderOnlyAnalysis nm fv).basic.gameVersion =
        (fv.bind FactorioVersionInfo.asString).getD "未知版本" ∧
      (buildHeaderOnlyAnalysis nm fv).develop =
        ⟨"前期（手动/半自动化）", some 0, ⟨0, 0, "0.00%"⟩, "热能"⟩ ∧
      (buildHeaderOnlyAnalysis nm fv).resource = ⟨[], [], [], []⟩ ∧
      (buildHeaderOnlyAnalysis nm fv).production = ⟨[], "—", []⟩ ∧
      (buildHeaderOnlyAnalysis nm fv).power = ⟨0, 0, "—", "充足"⟩ ∧
      (buildHeaderOnlyAnalysis nm fv).enemy = ⟨0, 0, "低", []⟩ ∧
      (buildHeaderOnlyAnalysis nm fv).optimizeSuggestions = ⟨[], [], [headerOnlyNote]⟩) := by
  constructor
  · match sd with
    | none => rfl
    | some s =>
      unfold analyzeFactorioSave
      unfold fullModeAvailable at h
      dsimp only at h ⊢
      cases hg : s.game with
      | none => simp [hg]
      | some g =>
        cases hc : (s.map.bind MapData.surfaces).bind List.head? with
        | none => simp [hg, hc]
        | some surf =>
          rw [hg, hc] at h
          simp at h
  · intro nm fv
    exact ⟨rfl, rfl, rfl, rfl, rfl, rfl, rfl, rfl, rfl, rfl⟩

/-- C5 (witness): the degraded report for an entirely absent record. -/
theorem C5_witness :
    analyzeFactorioSave none = Except.ok (buildHeaderOnlyAnalysis none none) ∧
    (∀ (nm : Option String) (fv : Option FactorioVersionInfo),
      (buildHeaderOnlyAnalysis nm fv).fullAnalysisAvailable = false ∧
      (buildHeaderOnlyAnalysis nm fv).basic.saveName = nm.getD "未命名基地" ∧
      (buildHeaderOnlyAnalysis nm fv).basic.gameTimeHour = "—" ∧
      (buildHeaderOnlyAnalysis nm fv).basic.gameVersion =
        (fv.bind FactorioVersionInfo.asString).getD "未知版本" ∧
      (buildHeaderOnlyAnalysis nm fv).develop =
        ⟨"前期（手动/半自动化）", some 0, ⟨0, 0, "0.00%"⟩, "热能"⟩ ∧
      (buildHeaderOnlyAnalysis nm fv).resource = ⟨[], [], [], []⟩ ∧
      (buildHeaderOnlyAnalysis nm fv).production = ⟨[], "—", []⟩ ∧
      (buildHeaderOnlyAnalysis nm fv).power = ⟨0, 0, "—", "充足"⟩ ∧
      (buildHeaderOnlyAnalysis nm fv).enemy = ⟨0, 0, "低", []⟩ ∧
      (buildHeaderOnlyAnalysis nm fv).optimizeSuggestions = ⟨[], [], [headerOnlyNote]⟩) :=
  C5_degraded_total none rfl

/-- `k` hostile nests and nothing else. -/
def nestsOnly (k : Nat) : List MapEntity := List.replicate k ⟨some "biter-nest", none⟩

/-- C7: the threat level is a function of the nest count alone with
thresholds 0 / <10 / <30, the alert list is non-empty exactly at
high/critical, and the probe counts 9, 10, 29, 30 land as claimed. -/
theorem C7_threat_thresholds :
    (∀ entities : List MapEntity,
      (computeEnemy entities).threatLevel =
        (if (computeEnemy entities).nestCount = 0 then "低"
         else if (computeEnemy entities).nestCount < 10 then "中"
         else if (computeEnemy entities).nestCount < 30 then "高" else "极高") ∧
      ((computeEnemy entities).threatAlert ≠ [] ↔
        ((computeEnemy entities).threatLevel = "高" ∨
          (computeEnemy entities).threatLevel = "极高"))) ∧
    (computeEnemy (nestsOnly 9)).threatLevel = "中" ∧
    (computeEnemy (nestsOnly 10)).threatLevel = "高" ∧
    (computeEnemy (nestsOnly 29)).threatLevel = "高" ∧
    (computeEnemy (nestsOnly 30)).threatLevel = "极高" := by
  refine ⟨fun entities => ⟨rfl, ?_⟩, by decide, by decide, by decide, by decide⟩
  obtain ⟨m, hm⟩ : ∃ m, (computeEnemy entities).threatAlert =
      if ((computeEnemy entities).threatLevel = "高" ∨
          (computeEnemy entities).threatLevel = "极高") then [m] else [] := ⟨_, rfl⟩
  rw [hm]
  by_cases hcond : ((computeEnemy entities).threatLevel = "高" ∨
      (computeEnemy entities).threatLevel = "极高")
  · simp [hcond]
  · simp [hcond]

/-- C10: with no furnaces and no mining drills the efficiency rate is the
literal "100%" (no division is attempted); with a positive machine count it
is the two-decimal percentage of effective machines. -/
theorem C10_efficiency_guard :
    ∀ (entities : List MapEntity) (stage : String),
      (countName entities "stone-furnace" + countName entities "steel-furnace" +
          countName entities "electric-mining-drill" + countName entities "burner-mining-drill" = 0 →
        (computeProduction entities stage).efficiencyRate = "100%") ∧
      (0 < countName entities "stone-furnace" + countName entities "steel-furnace" +
          countName entities "electric-mining-drill" + countName entities "burner-mining-drill" →
        (computeProduction entities stage).efficiencyRate =
          toFixed2str ((((countName entities "steel-furnace" +
              countName entities "electric-mining-drill" : Nat) : ℚ) /
            ((countName entities "stone-furnace" + countName entities "steel-furnace" +
              countName entities "electric-mining-drill" +
              countName entities "burner-mining-drill" : Nat) : ℚ)) * 100) ++ "%") := by
  intro entities stage
  have hrate : (computeProduction entities stage).efficiencyRate =
      if 0 < countName entities "stone-furnace" + countName entities "steel-furnace" +
          countName entities "electric-mining-drill" + countName entities "burner-mining-drill" then
        toFixed2str ((((countName entities "steel-furnace" +
            countName entities "electric-mining-drill" : Nat) : ℚ) /
          ((countName entities "stone-furnace" + countName entities "steel-furnace" +
            countName entities "electric-mining-drill" +
            countName entities "burner-mining-drill" : Nat) : ℚ)) * 100) ++ "%"
      else "100%" := rfl
  constructor
  · intro h0
    rw [hrate, if_neg (by omega)]
  · intro hpos
    rw [hrate, if_pos hpos]

/-- C10 (witness): an empty map yields the guarded "100%". -/
theorem C10_witness :
    (computeProduction [] "前期（手动/半自动化）").efficiencyRate = "100%" :=
  (C10_efficiency_guard [] "前期（手动/半自动化）").1 rfl

/-- C6 (amended): with a nonzero rounded consumption the power status is
determined by the two-decimal-rounded ratio of the rounded totals —
`≥ 1.10` sufficient, `≥ 0.90` tight, else insufficient — and the probe
ratios 1.10, 0.90 and 0.89 give sufficient, tight and insufficient. -/
theorem C6_power_thresholds (prodTotal consTotal : Option ℚ)
    (h : jsRound (jsOrOne consTotal) ≠ 0) :
    (computePower prodTotal consTotal).powerStatus =
      (if toFixed2val ((jsRound (prodTotal.getD 0) : ℚ) /
            (jsRound (jsOrOne consTotal) : ℚ)) ≥ 11 / 10 then "充足"
       else if toFixed2val ((jsRound (prodTotal.getD 0) : ℚ) /
            (jsRound (jsOrOne consTotal) : ℚ)) ≥ 9 / 10 then "紧张"
       else "不足") ∧
    (computePower (some 110) (some 100)).powerStatus = "充足" ∧
    (computePower (some 90) (some 100)).powerStatus = "紧张" ∧
    (computePower (some 89) (some 100)).powerStatus = "不足" := by
  refine ⟨?_, by decide, by decide, by decide⟩
  unfold computePower
  rw [if_neg h]

/-- C6 (witness): production 200, consumption 100 is sufficient. -/
theorem C6_witness : (computePower (some 200) (some 100)).powerStatus = "充足" :=
  ((C6_power_thresholds (some 200) (some 100) (by decide)).1).trans (by decide)

/-- C6 (counterexample): production 137, consumption 125 reports sufficient
although the raw production/consumption ratio 1.096 is below 1.10 — the
threshold is applied to the rounded ratio, not to the raw one. -/
theorem C6_counterexample :
    (computePower (some 137) (some 125)).powerStatus = "充足" ∧
    ¬ ((137 : ℚ) / 125 ≥ 11 / 10) := by decide

/-- `k` researched technologies and nothing else. -/
def researchedTechs (k : Nat) : List TechEntry := List.replicate k ⟨"tech", true⟩

/-- The claim's early-stage test: elapsed hours < 10 AND researched < 30. -/
def claimStageEarly (gameTime : Option ℚ) (researched : Nat) : Bool :=
  jsLtNum gameTime 10 && decide (researched < 30)

/-- The claimed score formula (C3's words): the stage component is
`min(50, h/10*50)` only in the computed early stage and 50 otherwise. -/
def claimDevelopScore (gameTime : Option ℚ) (researched total : Nat) : Option Int :=
  if total = 0 then none
  else some (min 100 (jsRound (min 50 (((researched : ℚ) / total) * 50) +
    (if claimStageEarly gameTime researched then min 50 ((gameTime.getD 0) / 10 * 50)
     else 50))))

/-- C3 (amended): with a non-empty technology table the development score is
`min(100, round(min(50, techRatio*50) + stageComponent))` where the stage
component is `hours/10*50` whenever the parsed elapsed hours are below 10 —
regardless of the computed stage — and 50 otherwise (also for `NaN`). -/
theorem C3_develop_score (techs : List TechEntry) (pp : ProdStats)
    (gameTime : Option ℚ) (h : techs.length ≠ 0) :
    (computeDevelop techs pp gameTime).score =
      some (min 100 (jsRound (min 50 ((((techs.filter TechEntry.researched).length : ℚ) /
          techs.length) * 50) + stageScoreOf gameTime))) := by
  simp only [computeDevelop]
  rw [if_neg h]

/-- C3 (witness): one researched technology of one at five hours scores
`min(100, round(50 + 25)) = 75`. -/
theorem C3_witness :
    (computeDevelop (researchedTechs 1) ⟨none, none, none, none⟩ (some 5)).score = some 75 :=
  (C3_develop_score (researchedTechs 1) ⟨none, none, none, none⟩ (some 5) (by decide)).trans
    (by decide)

/-- C3 (counterexample): at five hours with 30 of 30 technologies researched
the stage is mid (not early), so the claim's formula gives 100, but the code
uses `gameTime < 10` alone and scores 75. -/
theorem C3_counterexample :
    (computeDevelop (researchedTechs 30) ⟨none, none, none, none⟩ (some 5)).score = some 75 ∧
    claimDevelopScore (some 5) 30 30 = some 100 := by decide

theorem except_ok_bind {ε α β : Type} (a : α) (f : α → Except ε β) :
    (Except.ok a : Except ε α) >>= f = f a := rfl

/-- C4 (amended): once the full-mode gate passes, the analysis succeeds
exactly when every nested substructure the engine dereferences is present;
this theorem shows the success direction. -/
theorem C4_full_mode_success (sd : SaveData) (g : GameData) (m : MapData)
    (surf : Surface) (fo : Forces) (p : PlayerForce) (techs : List TechEntry)
    (ens : ElecStats) (pp : ProdStats) (cs : ConsStats) (ips : ItemProdStats)
    (oc items : List (String × ℚ)) (ents : List MapEntity)
    (hg : sd.game = some g) (hm : sd.map = some m)
    (hs : (sd.map.bind MapData.surfaces).bind List.head? = some surf)
    (hf : g.forces = some fo) (he : surf.entities = some ents)
    (hp : fo.player = some p) (ht : p.technologies = some techs)
    (hens : p.electric_network_statistics = some ens)
    (hpp : ens.production = some pp)
    (hips : p.item_production_statistics = some ips)
    (hoc : ips.output_counts = some oc) (hit : p.items = some items)
    (hcs : ens.consumption = some cs) :
    (analyzeFactorioSave (some sd)).isOk = true := by
  simp only [analyzeFactorioSave, hg, hs]
  simp only [hm]
  simp only [analyzeFull, hf, he, hp, ht, hens, hpp, hips, hoc, hit, hcs, req,
    except_ok_bind]
  rfl

/-- A structurally complete snapshot with empty tables. -/
def sampleFullSave : SaveData :=
  { name := none
    factorioVersion := none
    game := some
      { forces := some
          { player := some
              { technologies := some []
                electric_network_statistics := some
                  { production := some ⟨none, none, none, none⟩
                    consumption := some ⟨none⟩ }
                item_production_statistics := some ⟨some []⟩
                items := some [] } }
        tick := some 0 }
    map := some { name := none, surfaces := some [⟨some []⟩] }
    game_version := none }

/-- C4 (witness): the complete sample snapshot analyzes successfully. -/
theorem C4_witness : (analyzeFactorioSave (some sampleFullSave)).isOk = true :=
  C4_full_mode_success sampleFullSave _ _ _ _ _ _ _ _ _ _ _ _ _
    rfl rfl rfl rfl rfl rfl rfl rfl rfl rfl rfl rfl rfl

/-- A snapshot that passes the full-mode gate but lacks `game.forces`. -/
def brokenFullSave : SaveData :=
  { name := none
    factorioVersion := none
    game := some { forces := none, tick := some 0 }
    map := some { name := none, surfaces := some [⟨some []⟩] }
    game_version := none }

/-- C4 (counterexample): a snapshot passing the full-mode decision but with
`forces` missing makes the engine raise instead of reporting zeros. -/
theorem C4_counterexample :
    fullModeAvailable (some brokenFullSave) = true ∧
    (analyzeFactorioSave (some brokenFullSave)).isOk = false := by decide

/-! ## Filename normalizer (gameSaveRepository.ts, `decodeFileName`)

JavaScript strings are lists of Unicode code points here (`List Nat`; lone
surrogate values are representable, marking ill-formed strings).
`Buffer.from(str, "utf8").toString("utf8")` is UTF-8 encoding (lone
surrogates become U+FFFD) followed by the WHATWG lenient decoder, and
`decodeURIComponent` follows the ECMA-262 Decode algorithm. -/

/-- UTF-8 encoding of one code unit; Node encodes a lone surrogate (and any
out-of-range value) as the replacement character U+FFFD. -/
def utf8EncodeChar (c : Nat) : List Nat :=
  if c < 128 then [c]
  else if c < 2048 then [192 + c / 64, 128 + c % 64]
  else if 55296 ≤ c ∧ c < 57344 then [239, 191, 189]
  else if c < 65536 then [224 + c / 4096, 128 + c / 64 % 64, 128 + c % 64]
  else if c < 1114112 then
    [240 + c / 262144, 128 + c / 4096 % 64, 128 + c / 64 % 64, 128 + c % 64]
  else [239, 191, 189]

/-- UTF-8 encoding of a string. -/
def utf8Encode : List Nat → List Nat
  | [] => []
  | c :: cs => utf8EncodeChar c ++ utf8Encode cs

/-- The WHATWG UTF-8 decoder (what `buffer.toString("utf8")` implements):
maximal-subpart replacement with U+FFFD, strict continuation ranges
(E0 A0–BF, ED 80–9F, F0 90–BF, F4 80–8F), a failing byte is reconsumed.
The fuel argument (one unit per decoded character, so the byte count always
suffices) only makes the recursion structural. -/
def utf8DecodeGo : Nat → List Nat → List Nat
  | _, [] => []
  | 0, _ :: _ => []
  | fuel + 1, b :: bs =>
    if b < 128 then b :: utf8DecodeGo fuel bs
    else if b < 194 then 65533 :: utf8DecodeGo fuel bs
    else if b < 224 then
      match bs with
      | b2 :: bs2 =>
        if 128 ≤ b2 ∧ b2 < 192 then ((b - 192) * 64 + (b2 - 128)) :: utf8DecodeGo fuel bs2
        else 65533 :: utf8DecodeGo fuel bs
      | [] => [65533]
    else if b < 240 then
      let lo2 := if b = 224 then 160 else 128
      let hi2 := if b = 237 then 159 else 191
      match bs with
      | b2 :: bs2 =>
        if lo2 ≤ b2 ∧ b2 ≤ hi2 then
          match bs2 with
          | b3 :: bs3 =>
            if 128 ≤ b3 ∧ b3 < 192 then
              ((b - 224) * 4096 + (b2 - 128) * 64 + (b3 - 128)) :: utf8DecodeGo fuel bs3
            else 65533 :: utf8DecodeGo fuel bs2
          | [] => [65533]
        else 65533 :: utf8DecodeGo fuel bs
      | [] => [65533]
    else if b < 245 then
      let lo2 := if b = 240 then 144 else 128
      let hi2 := if b = 244 then 143 else 191
      match bs with
      | b2 :: bs2 =>
        if lo2 ≤ b2 ∧ b2 ≤ hi2 then
          match bs2 with
          | b3 :: bs3 =>
            if 128 ≤ b3 ∧ b3 < 192 then
              match bs3 with
              | b4 :: bs4 =>
                if 128 ≤ b4 ∧ b4 < 192 then
                  ((b - 240) * 262144 + (b2 - 128) * 4096 + (b3 - 128) * 64 + (b4 - 128)) ::
                    utf8DecodeGo fuel bs4
                else 65533 :: utf8DecodeGo fuel bs3
              | [] => [65533]
            else 65533 :: utf8DecodeGo fuel bs2
          | [] => [65533]
        else 65533 :: utf8DecodeGo fuel bs
      | [] => [65533]
    else 65533 :: utf8DecodeGo fuel bs

/-- UTF-8 decoding of a byte list. -/
def utf8DecodeL (bs : List Nat) : List Nat := utf8DecodeGo bs.length bs

/-- `Buffer.from(str, "latin1")`: each UTF-16 code unit masked to its low
byte (an astral code point contributes its two surrogate units). -/
def latin1Bytes : List Nat → List Nat
  | [] => []
  | c :: cs =>
    (if c < 65536 then [c % 256]
     else [(55296 + (c - 65536) / 1024) % 256, (56320 + (c - 65536) % 1024) % 256]) ++
      latin1Bytes cs

/-- `isValidUTF8`: the Buffer round trip reproduces the string. -/
def isValidUTF8 (s : List Nat) : Bool :=
  utf8DecodeL (utf8Encode s) == s

/-- The accented characters of the `looksLikeGarbled` regex class
`[æåèéêëìíîïðñòóôõöøùúûüýþÿ]`. -/
def garbledChars : List Nat :=
  [230, 229, 232, 233, 234, 235, 236, 237, 238, 239, 240, 241, 242, 243,
   244, 245, 246, 248, 249, 250, 251, 252, 253, 254, 255]

/-- `containsChinese`: any code point in U+4E00–U+9FFF. -/
def containsChineseL (s : List Nat) : Bool :=
  s.any (fun c => decide (19968 ≤ c ∧ c ≤ 40959))

/-- `looksLikeGarbled`: a garbled-class character present and no Chinese. -/
def looksLikeGarbled (s : List Nat) : Bool :=
  s.any (fun c => garbledChars.contains c) && ! containsChineseL s

/-- A hexadecimal digit's value. -/
def hexDigit (c : Nat) : Option Nat :=
  if 48 ≤ c ∧ c ≤ 57 then some (c - 48)
  else if 65 ≤ c ∧ c ≤ 70 then some (c - 55)
  else if 97 ≤ c ∧ c ≤ 102 then some (c - 87)
  else none

/-- Collect `k` continuation escapes `%XX` (ECMA-262 Decode step for a
multibyte sequence); `none` models the thrown `URIError`. -/
def collectEscBytes : Nat → List Nat → Option (List Nat × List Nat)
  | 0, rest => some ([], rest)
  | k + 1, rest =>
    match rest with
    | 37 :: h1 :: h2 :: rest2 =>
      match hexDigit h1, hexDigit h2 with
      | some x, some y =>
        (collectEscBytes k rest2).map (fun p => ((x * 16 + y) :: p.1, p.2))
      | _, _ => none
    | _ => none

/-- Strict decode of one complete multibyte UTF-8 sequence (no overlong
forms, no surrogates, at most U+10FFFF); `none` models `URIError`. -/
def utf8One : List Nat → Option Nat
  | [b1, b2] =>
    if 194 ≤ b1 ∧ b1 ≤ 223 ∧ 128 ≤ b2 ∧ b2 < 192 then
      some ((b1 - 192) * 64 + (b2 - 128))
    else none
  | [b1, b2, b3] =>
    if 224 ≤ b1 ∧ b1 ≤ 239 ∧ 128 ≤ b2 ∧ b2 < 192 ∧ 128 ≤ b3 ∧ b3 < 192 then
      let cp := (b1 - 224) * 4096 + (b2 - 128) * 64 + (b3 - 128)
      if 2048 ≤ cp ∧ (cp < 55296 ∨ 57343 < cp) then some cp else none
    else none
  | [b1, b2, b3, b4] =>
    if 240 ≤ b1 ∧ b1 ≤ 244 ∧ 128 ≤ b2 ∧ b2 < 192 ∧ 128 ≤ b3 ∧ b3 < 192 ∧
        128 ≤ b4 ∧ b4 < 192 then
      let cp := (b1 - 240) * 262144 + (b2 - 128) * 4096 + (b3 - 128) * 64 + (b4 - 128)
      if 65536 ≤ cp ∧ cp ≤ 1114111 then some cp else none
    else none
  | _ => none

/-- ECMA-262 Decode with an empty reserved set (`decodeURIComponent`),
structured on a fuel argument (one unit per consumed source character, so
`fuel = s.length` always suffices); `none` models `URIError`. -/
def decodeURIAux : Nat → List Nat → Option (List Nat)
  | _, [] => some []
  | 0, _ :: _ => none
  | fuel + 1, c :: rest =>
    if c = 37 then
      match rest with
      | h1 :: h2 :: rest2 =>
        match hexDigit h1, hexDigit h2 with
        | some x, some y =>
          let b := x * 16 + y
          if b < 128 then (decodeURIAux fuel rest2).map (fun d => b :: d)
          else
            let n := if b < 192 then 1 else if b < 224 then 2
                     else if b < 240 then 3 else if b < 248 then 4 else 5
            if n = 1 ∨ n = 5 then none
            else
              match collectEscBytes (n - 1) rest2 with
              | some (bytes, rest3) =>
                match utf8One (b :: bytes) with
                | some cp => (decodeURIAux fuel rest3).map (fun d => cp :: d)
                | none => none
              | none => none
        | _, _ => none
      | _ => none
    else (decodeURIAux fuel rest).map (fun d => c :: d)

/-- `decodeURIComponent`. -/
def jsDecodeURIComponent (s : List Nat) : Option (List Nat) :=
  decodeURIAux s.length s

/-- The code points of the sentinel `"unnamed"`. -/
def unnamedCodes : List Nat := [117, 110, 110, 97, 109, 101, 100]

/-- `decodeFileName`: the ordered repair chain — sentinel for an empty name;
URL-decode accepted if valid UTF-8; latin1 reinterpretation accepted if it
surfaces Chinese; unconditional latin1 reinterpretation for garbled-looking
names; otherwise the input unchanged.  A decode exception (`none`) fails
only its own stage. -/
def decodeFileName (fileName : List Nat) : List Nat :=
  if fileName = [] then unnamedCodes
  else
    let try1 : Option (List Nat) :=
      if fileName.contains 37 then
        match jsDecodeURIComponent fileName with
        | some decoded => if isValidUTF8 decoded then some decoded else none
        | none => none
      else none
    match try1 with
    | some decoded => decoded
    | none =>
      let try2 : Option (List Nat) :=
        if ¬ isValidUTF8 fileName then
          let decoded := utf8DecodeL (latin1Bytes fileName)
          if containsChineseL decoded then some decoded else none
        else none
      match try2 with
      | some decoded => decoded
      | none =>
        if looksLikeGarbled fileName then utf8DecodeL (latin1Bytes fileName)
        else fileName

theorem utf8DecodeGo_encodeChar (fuel : Nat) (c : Nat) (hc : c < 1114112)
    (hs : c < 55296 ∨ 57343 < c) (bs : List Nat) :
    utf8DecodeGo (fuel + 1) (utf8EncodeChar c ++ bs) = c :: utf8DecodeGo fuel bs := by
  unfold utf8EncodeChar
  by_cases h1 : c < 128
  · rw [if_pos h1]
    show utf8DecodeGo (fuel + 1) (c :: bs) = _
    simp only [utf8DecodeGo]
    rw [if_pos h1]
  · rw [if_neg h1]
    by_cases h2 : c < 2048
    · rw [if_pos h2]
      show utf8DecodeGo (fuel + 1) ((192 + c / 64) :: (128 + c % 64) :: bs) = _
      simp only [utf8DecodeGo]
      rw [if_neg (by omega), if_neg (by omega), if_pos (by omega), if_pos (by omega)]
      have he : (192 + c / 64 - 192) * 64 + (128 + c % 64 - 128) = c := by omega
      rw [he]
    · rw [if_neg h2, if_neg (by omega)]
      by_cases h3 : c < 65536
      · rw [if_pos h3]
        show utf8DecodeGo (fuel + 1)
            ((224 + c / 4096) :: (128 + c / 64 % 64) :: (128 + c % 64) :: bs) = _
        simp only [utf8DecodeGo]
        rw [if_neg (by omega), if_neg (by omega), if_neg (by omega), if_pos (by omega)]
        rw [if_pos (⟨by split <;> omega, by split <;> omega⟩ :
          (if 224 + c / 4096 = 224 then 160 else 128) ≤ 128 + c / 64 % 64 ∧
            128 + c / 64 % 64 ≤ if 224 + c / 4096 = 237 then 159 else 191)]
        rw [if_pos (by omega : 128 ≤ 128 + c % 64 ∧ 128 + c % 64 < 192)]
        have he : (224 + c / 4096 - 224) * 4096 + (128 + c / 64 % 64 - 128) * 64 +
            (128 + c % 64 - 128) = c := by omega
        rw [he]
      · rw [if_neg h3, if_pos hc]
        show utf8DecodeGo (fuel + 1) ((240 + c / 262144) :: (128 + c / 4096 % 64) ::
            (128 + c / 64 % 64) :: (128 + c % 64) :: bs) = _
        simp only [utf8DecodeGo]
        rw [if_neg (by omega), if_neg (by omega), if_neg (by omega), if_neg (by omega),
          if_pos (by omega)]
        rw [if_pos (⟨by split <;> omega, by split <;> omega⟩ :
          (if 240 + c / 262144 = 240 then 144 else 128) ≤ 128 + c / 4096 % 64 ∧
            128 + c / 4096 % 64 ≤ if 240 + c / 262144 = 244 then 143 else 191)]
        rw [if_pos (by omega : 128 ≤ 128 + c / 64 % 64 ∧ 128 + c / 64 % 64 < 192)]
        rw [if_pos (by omega : 128 ≤ 128 + c % 64 ∧ 128 + c % 64 < 192)]
        have he : (240 + c / 262144 - 240) * 262144 + (128 + c / 4096 % 64 - 128) * 4096 +
            (128 + c / 64 % 64 - 128) * 64 + (128 + c % 64 - 128) = c := by omega
        rw [he]

theorem utf8EncodeChar_length_pos (c : Nat) : 1 ≤ (utf8EncodeChar c).length := by
  unfold utf8EncodeChar
  split_ifs <;> simp

theorem utf8Encode_length_ge (s : List Nat) : s.length ≤ (utf8Encode s).length := by
  induction s with
  | nil => simp [utf8Encode]
  | cons c cs ih =>
    have := utf8EncodeChar_length_pos c
    simp only [utf8Encode, List.length_append, List.length_cons]
    omega

theorem utf8DecodeGo_utf8Encode (s : List Nat) (fuel : Nat) (hf : s.length ≤ fuel)
    (h : ∀ c ∈ s, c < 1114112 ∧ (c < 55296 ∨ 57343 < c)) :
    utf8DecodeGo fuel (utf8Encode s) = s := by
  induction s generalizing fuel with
  | nil => cases fuel <;> rfl
  | cons c cs ih =>
    obtain ⟨f, rfl⟩ : ∃ f, fuel = f + 1 := ⟨fuel - 1, by simp at hf; omega⟩
    have hc := h c (List.mem_cons_self c cs)
    rw [show utf8Encode (c :: cs) = utf8EncodeChar c ++ utf8Encode cs from rfl]
    rw [utf8DecodeGo_encodeChar f c hc.1 hc.2]
    rw [ih f (by simp at hf; omega) (fun x hx => h x (List.mem_cons_of_mem c hx))]

theorem isValidUTF8_of_scalars (s : List Nat)
    (h : ∀ c ∈ s, c < 1114112 ∧ (c < 55296 ∨ 57343 < c)) :
    isValidUTF8 s = true := by
  unfold isValidUTF8 utf8DecodeL
  rw [utf8DecodeGo_utf8Encode s (utf8Encode s).length (utf8Encode_length_ge s) h]
  simp

theorem decodeFileName_fixed (s : List Nat) (hne : s ≠ [])
    (hval : ∀ c ∈ s, c < 1114112 ∧ (c < 55296 ∨ 57343 < c))
    (hpct : s.contains 37 = false)
    (hgarb : looksLikeGarbled s = false) :
    decodeFileName s = s := by
  unfold decodeFileName
  rw [if_neg hne]
  have hv : isValidUTF8 s = true := isValidUTF8_of_scalars s hval
  have hp : (37 : Nat) ∉ s := by simpa using hpct
  simp [hp, hv, hgarb]

/-- C9 (amended): the normalizer is idempotent on well-formed input that
contains no percent sign and does not match the garbled heuristic — on such
input it returns its argument unchanged (and the empty-name sentinel is
itself a fixed point).  Idempotence fails in general, see the
counterexample. -/
theorem C9_normalize_idempotent_guarded (s : List Nat)
    (hval : ∀ c ∈ s, c < 1114112 ∧ (c < 55296 ∨ 57343 < c))
    (hpct : s.contains 37 = false)
    (hgarb : looksLikeGarbled s = false) :
    decodeFileName (decodeFileName s) = decodeFileName s := by
  by_cases hne : s = []
  · subst hne
    decide
  · have hfix := decodeFileName_fixed s hne hval hpct hgarb
    simp only [hfix]

/-- C9 (witness): idempotence at the plain ASCII name "save". -/
theorem C9_witness :
    decodeFileName (decodeFileName [115, 97, 118, 101]) = decodeFileName [115, 97, 118, 101] :=
  C9_normalize_idempotent_guarded [115, 97, 118, 101] (by decide) (by decide) (by decide)

/-- C9 (counterexample): two valid inputs on which normalization is not
idempotent — "%2541" URL-decodes to "%41" which decodes again to "A", and
the garbled-looking "æÃ¦" keeps being reinterpreted. -/
theorem C9_counterexample :
    (isValidUTF8 [37, 50, 53, 52, 49] = true ∧
      decodeFileName (decodeFileName [37, 50, 53, 52, 49]) ≠ decodeFileName [37, 50, 53, 52, 49]) ∧
    (isValidUTF8 [230, 195, 166] = true ∧
      decodeFileName (decodeFileName [230, 195, 166]) ≠ decodeFileName [230, 195, 166]) := by
  decide
